import Mathlib

/-!
Verification of the hauth session state machine and storage layer.

The definitions below are a shallow embedding of the Python sources:
  - `src/hauth/models/session.py`   (State, Session, PartialSession)
  - `src/hauth/models/localization.py` (the localization tables used by the client)
  - `src/hauth/modules/fprocessor.py`  (per-key localized lookup on the login page)
  - `src/hauth/storages/memory.py`  (in-memory dict storage and eviction sweep)
  - `src/hauth/storages/postgres.py` (SQL row semantics of get/update)
  - `src/hauth/client.py`           (HAuth._define_session_state, _login_session,
                                     _email_verify_session, _handle_request)

Conventions: wall-clock time and TTLs are modelled as natural numbers of
seconds; the opaque third-party payloads (geetest descriptors, verification
tickets, login results) are modelled as opaque blob wrappers that the core
never inspects beyond presence; Python exceptions are modelled with `Except`.
-/

/-- Opaque geetest challenge descriptor (genshin.models.SessionMMT). -/
structure SessionMMT where
  blob : Nat
deriving DecidableEq

/-- Opaque solved-geetest payload (genshin.models.SessionMMTResult). -/
structure MMTResult where
  blob : Nat
deriving DecidableEq

/-- Opaque email verification ticket (genshin.models.ActionTicket). -/
structure ActionTicket where
  blob : Nat
deriving DecidableEq

/-- Opaque login result (genshin.models.AppLoginResult). -/
structure AppLoginResult where
  blob : Nat
deriving DecidableEq

/-- Opaque caller-supplied session data bag (the `data` dict). -/
structure UserData where
  blob : Nat
deriving DecidableEq

/-- Session state, from `models/session.py` (`class State`). -/
inductive State
  | undefined
  | login_required
  | login_geetest_triggered
  | email_verification_triggered
  | email_geetest_triggered
  | success
deriving DecidableEq

/-- Session record, from `models/session.py` (`class Session`).
Field for field the pydantic model: `expiration_time` is an absolute
timestamp in seconds (`None` = never expires). -/
structure Session where
  id : String
  state : State := State.undefined
  data : Option UserData := none
  language : Option String := some "en"
  account : Option String := none
  password : Option String := none
  mmt : Option SessionMMT := none
  ticket : Option ActionTicket := none
  expiration_time : Option Nat := none
  login_result : Option AppLoginResult := none
deriving DecidableEq

/-- Safe session view, from `models/session.py` (`class PartialSession`):
id, state, language, mmt and ticket only. -/
structure PartialSession where
  id : String
  state : State
  language : Option String
  mmt : Option SessionMMT
  ticket : Option ActionTicket
deriving DecidableEq

/-- Embeds `Session.get_partial`: projects id, state, language, mmt, ticket. -/
def Session.getPartial (s : Session) : PartialSession :=
  { id := s.id
    state := s.state
    language := s.language
    mmt := s.mmt
    ticket := s.ticket }

/-- One localization table: a language-tag-keyed dict of strings. -/
abbrev LocMap := List (String × String)

/-- Python dict `d[k]` lookup on a localization table (None key or a missing
key raises KeyError; the caller decides what a `none` result means). -/
def locGet (m : LocMap) : Option String → Option String
  | none => none
  | some lang =>
    match m.find? (fun p => p.1 = lang) with
    | some p => some p.2
    | none => none

/-- Embeds the per-key lookup of `modules/fprocessor.py` line 14:
`value.get(language, "")` — a missing language falls back to the empty
string, not to the `"en"` entry. -/
def fprocessLookup (m : LocMap) (lang : String) : String :=
  (locGet m (some lang)).getD ""

/-- The localization fields of `models/localization.py` that `client.py`
reads when building error responses. -/
structure LocTable where
  invalid_request_body_title : LocMap
  invalid_request_body_message : LocMap
  login_failed_title : LocMap
  login_failed_message : LocMap
  email_verification_failed_title : LocMap
  email_verification_failed_message : LocMap

/-- Default values of those tables, verbatim from `models/localization.py`:
each has exactly an "en" and a "ru" entry. -/
def defaultLocalization : LocTable :=
  { invalid_request_body_title :=
      [("en", "Invalid request body."), ("ru", "Неверное тело запроса.")]
    invalid_request_body_message :=
      [("en", "Request body is invalid. Please report this error to the developer or try again later."),
       ("ru", "Некорректное тело запроса. Пожалуйста, сообщите об этой ошибке разработчику или попробуйте позже.")]
    login_failed_title :=
      [("en", "Login failed."), ("ru", "Вход не удался.")]
    login_failed_message :=
      [("en", "Could not login into your account. Please check your credentials and try again."),
       ("ru", "Не удалось войти в аккаунт. Пожалуйста, проверьте ваши данные и попробуйте снова.")]
    email_verification_failed_title :=
      [("en", "Email verification failed."), ("ru", "Проверка почты не удалась.")]
    email_verification_failed_message :=
      [("en", "Could not verify your email. Please check the code and try again."),
       ("ru", "Не удалось проверить вашу почту. Пожалуйста, проверьте код и попробуйте снова.")] }

/-- The in-memory session store: the `self._storage` dict of
`storages/memory.py`, as an association list with unique keys kept in
insertion order (Python dict semantics). -/
abbrev Storage := List (String × Session)

/-- Python dict read `d.get(id, None)`: first (only) entry with the key. -/
def dictGet : Storage → String → Option Session
  | [], _ => none
  | p :: rest, id => if p.1 = id then some p.2 else dictGet rest id

/-- Python dict write `d[id] = s`: replaces in place, or appends when the
key is new. -/
def dictSet : Storage → String → Session → Storage
  | [], id, s => [(id, s)]
  | p :: rest, id, s => if p.1 = id then (id, s) :: rest else p :: dictSet rest id s

/-- Python dict delete `del d[id]` / `d.pop(id)`: removes the entry. -/
def dictErase : Storage → String → Storage
  | [], _ => []
  | p :: rest, id => if p.1 = id then rest else p :: dictErase rest id

/-- Key uniqueness, the representation invariant of a Python dict. -/
abbrev keysNodup (st : Storage) : Prop :=
  (st.map (fun p => p.1)).Nodup

/-- Embeds `MemorySessionsStorage.get_session`: a plain dict read,
`self._storage.get(id, None)` — no expiration filtering of any kind. -/
def memGetSession (st : Storage) (id : String) : Option Session :=
  dictGet st id

/-- Embeds `MemorySessionsStorage.update_session`: `self._storage[id] = session`,
an unconditional dict write (insert-if-absent). -/
def memUpdateSession (st : Storage) (id : String) (s : Session) : Storage :=
  dictSet st id s

/-- Embeds `MemorySessionsStorage.delete_session`:
`if id in self._storage: del self._storage[id]`. -/
def memDeleteSession (st : Storage) (id : String) : Storage :=
  dictErase st id

/-- Embeds the session constructed by `MemorySessionsStorage.create_session`
(lines 100-110 of `storages/memory.py`). The method's parameters are named
`arguments` and `login`, but the `Session` pydantic model has fields `data`
and `account` and ignores unknown keyword fields, so the constructed session
carries `data = None` and `account = None` no matter what was passed; the
method also has no `login_result` parameter at all. `expiration_time` is
`time.time() + ttl` when `ttl` is truthy (a `ttl` of 0 or None yields None). -/
def memCreateSession (ttl : Option Nat) (now : Nat) (sid : String)
    (arguments : Option UserData) (language : Option String)
    (login : Option String) (password : Option String)
    (mmt : Option SessionMMT) (ticket : Option ActionTicket) : Session :=
  { id := sid
    state := State.undefined
    data := none
    language := language
    account := none
    password := password
    mmt := mmt
    ticket := ticket
    expiration_time :=
      match ttl with
      | some t => if t = 0 then none else some (now + t)
      | none => none
    login_result := none }

/-- Embeds `create_session`'s final store step `self._storage[sid] = session`
together with the constructed session. -/
def memCreateInStore (st : Storage) (ttl : Option Nat) (now : Nat) (sid : String)
    (arguments : Option UserData) (language : Option String)
    (login : Option String) (password : Option String)
    (mmt : Option SessionMMT) (ticket : Option ActionTicket) : Storage × Session :=
  let s := memCreateSession ttl now sid arguments language login password mmt ticket
  (dictSet st sid s, s)

/-- Expiry test of the eviction sweep, `storages/memory.py` line 49:
`session.expiration_time is not None and time.time() > session.expiration_time`
(strictly past the deadline). -/
def isExpired (now : Nat) (s : Session) : Bool :=
  match s.expiration_time with
  | some e => now > e
  | none => false

/-- One pass of the eviction sweep body (`_cleanup_expired_sessions`, lines
47-54): given the snapshot of expired entries, pop each key and invoke the
expiry callback. The callback is modelled by its only observable effects:
`fail s = true` means the callback raises on session `s`. An exception
propagates out of the `for` loop (there is no try/except), so the remaining
entries are neither popped nor called back and the surrounding `while True`
task dies. Returns (storage left behind, sessions whose callback was
invoked, whether an exception escaped the pass). -/
def sweepGo (fail : Session → Bool) : List (String × Session) → Storage → Storage × List Session × Bool
  | [], st => (st, [], false)
  | (k, s) :: ks, st =>
    let st1 := dictErase st k
    if fail s then (st1, [s], true)
    else
      let r := sweepGo fail ks st1
      (r.1, s :: r.2.1, r.2.2)

/-- One full pass of `_cleanup_expired_sessions`: snapshot of expired
entries (line 47-50), then the pop/callback loop. -/
def cleanupPass (fail : Session → Bool) (now : Nat) (st : Storage) : Storage × List Session × Bool :=
  sweepGo fail (st.filter (fun p => isExpired now p.2)) st

/-- Embeds `PostgresSessionsStorage.get_session`:
`SELECT * FROM sessions WHERE id = $1` — selected by id only, with no
expiration-time condition; row (de)serialization is abstracted, rows are
held as session values. -/
def pgGetSession (st : Storage) (id : String) : Option Session :=
  dictGet st id

/-- Python-level errors surfaced by the embedded code. -/
inductive PyErr
  | keyError
  | typeError
  | attributeError
deriving DecidableEq

/-- Embeds `PostgresSessionsStorage.update_session` as written: the method
reads `session.login` (line 144) while the `Session` pydantic model defines
`account` and no `login` field, so attribute access raises AttributeError
before the UPDATE statement is ever sent. -/
def pgUpdateSession (st : Storage) (id : String) (s : Session) : Except PyErr Storage :=
  .error PyErr.attributeError

/-- Row semantics of the UPDATE statement `UPDATE sessions SET ... WHERE
id = $10` that `PostgresSessionsStorage.update_session` submits (were the
attribute read repaired): existing rows with the matching id have their
non-id columns overwritten; no row is inserted when the id is absent. -/
def pgUpdateRows (st : Storage) (id : String) (s : Session) : Storage :=
  st.map (fun p => if p.1 = id then (p.1, { s with id := p.1 }) else p)

/-- Outcome of the remote login call `client._app_login(...)` in
`HAuth._login_session`: the gateway either demands a geetest
(`SessionMMT`), demands email verification (`ActionTicket`), succeeds
(`AppLoginResult`), or rejects the attempt (GenshinException). -/
inductive LoginOutcome
  | mmtTriggered (m : SessionMMT)
  | ticketTriggered (t : ActionTicket)
  | ok (r : AppLoginResult)
  | exc
deriving DecidableEq

/-- Embeds `HAuth._login_session` (client.py lines 75-90): branches on the
gateway outcome, setting the new state and storing the outcome's payload on
the session; a GenshinException resets the state to LOGIN_REQUIRED. No
branch clears the payload fields of other stages. -/
def loginSession (gw : LoginOutcome) (s : Session) : Session :=
  match gw with
  | LoginOutcome.mmtTriggered m =>
    { s with state := State.login_geetest_triggered, mmt := some m }
  | LoginOutcome.ticketTriggered t =>
    { s with state := State.email_verification_triggered, ticket := some t }
  | LoginOutcome.ok r =>
    { s with login_result := some r, state := State.success }
  | LoginOutcome.exc =>
    { s with state := State.login_required }

/-- Embeds `HAuth._email_verify_session` (client.py lines 92-112): on
gateway success returns the session unchanged with `true`; on
GenshinException sets the state to EMAIL_VERIFICATION_TRIGGERED and
returns `false`. `verifyOk` is the gateway's verdict on
`client._verify_email(code, ticket)`. -/
def emailVerifySession (verifyOk : Bool) (s : Session) : Session × Bool :=
  if verifyOk then (s, true)
  else ({ s with state := State.email_verification_triggered }, false)

/-- Python truthiness of an optional string (`if session.account and
session.password`): None and the empty string are falsy. -/
def pyTruthyStr : Option String → Bool
  | none => false
  | some s => s ≠ ""

/-- Embeds `HAuth._define_session_state` (client.py lines 48-59): an
UNDEFINED session with truthy account and password goes straight to the
login attempt; otherwise it becomes LOGIN_REQUIRED. Returns the session
and the number of gateway calls made. -/
def defineSessionState (gw : LoginOutcome) (s : Session) : Session × Nat :=
  if s.state = State.undefined then
    if pyTruthyStr s.account ∧ pyTruthyStr s.password then (loginSession gw s, 1)
    else ({ s with state := State.login_required }, 0)
  else (s, 0)

/-- The parts of `Config` that `_handle_request` consults: whether the
`on_success` and `on_error` callbacks are configured, and the localization
tables. -/
structure Ctx where
  on_success : Bool
  on_error : Bool
  localization : LocTable

/-- Request payload, one of the three pydantic request models of
`models/request.py` (ReqLogin, ReqMMTResult, ReqEmailVerification). -/
inductive ReqData
  | login (account : String) (password : String)
  | mmtResult (m : MMTResult)
  | emailVerification (code : String)
deriving DecidableEq

/-- Response body content: either the safe session projection or the
structured `error: title/message` object. -/
inductive Content
  | projection (p : PartialSession)
  | errorBody (title : String) (message : String)
deriving DecidableEq

/-- Embeds `JSONResponse` of `models/request.py`. -/
structure JSONResponse where
  status_code : Nat
  content : Content
deriving DecidableEq

deriving instance DecidableEq for Except

/-- Observable outcome of one `HAuth._handle_request` call: the response
(or the uncaught exception), the storage afterwards, the sessions passed
to the `on_success` callback (in firing order), the number of `on_error`
firings, and the number of remote-gateway calls made. -/
structure HandleOut where
  resp : Except PyErr JSONResponse
  store : Storage
  successFired : List Session
  errorFired : Nat
  gwCalls : Nat
deriving DecidableEq

/-- An exception escaping the `try` of `_handle_request` (lines 258-261):
fire `on_error` if configured, re-raise. -/
def raiseOut (ctx : Ctx) (e : PyErr) (st : Storage) (fired : List Session) (gw : Nat) : HandleOut :=
  { resp := Except.error e
    store := st
    successFired := fired
    errorFired := if ctx.on_error then 1 else 0
    gwCalls := gw }

/-- The invalid-request-body path (client.py lines 139-148 and its three
clones): persist the session unchanged, then build the 422 response; the
dict lookups `localization.invalid_request_body_title[language]` and
`...message[language]` raise KeyError when the language has no entry. -/
def invalidBodyOut (ctx : Ctx) (s : Session) (st : Storage) (fired : List Session) (gw : Nat) : HandleOut :=
  let st1 := memUpdateSession st s.id s
  match locGet ctx.localization.invalid_request_body_title s.language with
  | none => raiseOut ctx PyErr.keyError st1 fired gw
  | some t =>
    match locGet ctx.localization.invalid_request_body_message s.language with
    | none => raiseOut ctx PyErr.keyError st1 fired gw
    | some m =>
      { resp := Except.ok ⟨422, Content.errorBody t m⟩
        store := st1
        successFired := fired
        errorFired := 0
        gwCalls := gw }

/-- The login-failed path (client.py lines 154-164 and its clone): persist,
then a status-200 structured error from the login_failed tables. -/
def loginFailedOut (ctx : Ctx) (s : Session) (st : Storage) (fired : List Session) (gw : Nat) : HandleOut :=
  let st1 := memUpdateSession st s.id s
  match locGet ctx.localization.login_failed_title s.language with
  | none => raiseOut ctx PyErr.keyError st1 fired gw
  | some t =>
    match locGet ctx.localization.login_failed_message s.language with
    | none => raiseOut ctx PyErr.keyError st1 fired gw
    | some m =>
      { resp := Except.ok ⟨200, Content.errorBody t m⟩
        store := st1
        successFired := fired
        errorFired := 0
        gwCalls := gw }

/-- The email-verification-failed path (client.py lines 209-219 and its
clone): persist, then a status-200 structured error. -/
def emailFailedOut (ctx : Ctx) (s : Session) (st : Storage) (fired : List Session) (gw : Nat) : HandleOut :=
  let st1 := memUpdateSession st s.id s
  match locGet ctx.localization.email_verification_failed_title s.language with
  | none => raiseOut ctx PyErr.keyError st1 fired gw
  | some t =>
    match locGet ctx.localization.email_verification_failed_message s.language with
    | none => raiseOut ctx PyErr.keyError st1 fired gw
    | some m =>
      { resp := Except.ok ⟨200, Content.errorBody t m⟩
        store := st1
        successFired := fired
        errorFired := 0
        gwCalls := gw }

/-- The tail of `_handle_request` (client.py lines 251-256), reached by
every branch that did not return early: if the session is in SUCCESS and
`on_success` is configured, fire the callback and delete the session —
then unconditionally persist the session again and return its projection. -/
def handleEpilogue (ctx : Ctx) (s : Session) (st : Storage) (fired : List Session) (gw : Nat) : HandleOut :=
  let firedSt :=
    if s.state = State.success ∧ ctx.on_success then
      (fired ++ [s], memDeleteSession st s.id)
    else (fired, st)
  let st2 := memUpdateSession firedSt.2 s.id s
  { resp := Except.ok ⟨200, Content.projection s.getPartial⟩
    store := st2
    successFired := firedSt.1
    errorFired := 0
    gwCalls := gw }

/-- Embeds `HAuth._handle_request` (client.py lines 114-261) over the
in-memory storage. `gwLogin` is the oracle for every `_app_login` call of
this request and `gwVerify` the oracle verdict for `_verify_email`.
Control flow mirrors the source: resolve UNDEFINED (firing `on_success`
and deleting when that immediately succeeds); with no payload, persist and
return the projection; otherwise dispatch on the state, with the
wrong-shape payload returning the 422 path untouched; the
EMAIL_GEETEST_TRIGGERED branch calls `_email_verify_session` with the
keyword argument `mmt_result`, which that method's signature does not
accept, so that call raises TypeError. -/
def handleRequest (ctx : Ctx) (gwLogin : LoginOutcome) (gwVerify : Bool)
    (st0 : Storage) (session0 : Session) (data : Option ReqData) : HandleOut :=
  let dsg :=
    if session0.state = State.undefined then defineSessionState gwLogin session0
    else (session0, 0)
  let s1 := dsg.1
  let g1 := dsg.2
  let fs1 :=
    if session0.state = State.undefined ∧ s1.state = State.success ∧ ctx.on_success then
      ([s1], memDeleteSession st0 s1.id)
    else ([], st0)
  let fired1 := fs1.1
  let st1 := fs1.2
  match data with
  | none =>
    let st2 := memUpdateSession st1 s1.id s1
    { resp := Except.ok ⟨200, Content.projection s1.getPartial⟩
      store := st2
      successFired := fired1
      errorFired := 0
      gwCalls := g1 }
  | some d =>
    if s1.state = State.login_required then
      match d with
      | ReqData.login account password =>
        let s2 := { s1 with account := some account, password := some password }
        let s3 := loginSession gwLogin s2
        if s3.state = State.login_required then
          loginFailedOut ctx s3 st1 fired1 (g1 + 1)
        else
          handleEpilogue ctx s3 st1 fired1 (g1 + 1)
      | _ => invalidBodyOut ctx s1 st1 fired1 g1
    else if s1.state = State.login_geetest_triggered then
      match d with
      | ReqData.mmtResult _ =>
        let s3 := loginSession gwLogin s1
        if s3.state = State.login_required then
          loginFailedOut ctx s3 st1 fired1 (g1 + 1)
        else
          handleEpilogue ctx s3 st1 fired1 (g1 + 1)
      | _ => invalidBodyOut ctx s1 st1 fired1 g1
    else if s1.state = State.email_verification_triggered then
      match d with
      | ReqData.emailVerification _ =>
        let vr := emailVerifySession gwVerify s1
        if vr.2 = false then
          emailFailedOut ctx vr.1 st1 fired1 (g1 + 1)
        else
          let s3 := loginSession gwLogin vr.1
          handleEpilogue ctx s3 st1 fired1 (g1 + 2)
      | _ => invalidBodyOut ctx s1 st1 fired1 g1
    else if s1.state = State.email_geetest_triggered then
      match d with
      | ReqData.mmtResult _ =>
        raiseOut ctx PyErr.typeError st1 fired1 g1
      | _ => invalidBodyOut ctx s1 st1 fired1 g1
    else
      handleEpilogue ctx s1 st1 fired1 g1

/-- Number of stage payloads set on a session (mmt, ticket, login_result). -/
def payloadCount (s : Session) : Nat :=
  (if s.mmt.isSome then 1 else 0) +
  (if s.ticket.isSome then 1 else 0) +
  (if s.login_result.isSome then 1 else 0)

/-- The invariant claimed by the spec (§3, aligned with the §4.2 table):
at most one of mmt / ticket / login_result is set, and a set one matches
the stage — mmt only in the geetest-challenge stages, ticket only in the
email-verification stages, login_result only in SUCCESS. Stated here to
be checked against the code's transitions. -/
def exclusiveAligned (s : Session) : Bool :=
  decide (payloadCount s ≤ 1) &&
  (!s.mmt.isSome || (s.state == State.login_geetest_triggered || s.state == State.email_geetest_triggered)) &&
  (!s.ticket.isSome || (s.state == State.email_verification_triggered || s.state == State.email_geetest_triggered)) &&
  (!s.login_result.isSome || (s.state == State.success))

/-- Shape mismatch between the session's current dispatch state and the
submitted payload, from the `isinstance` guards of `_handle_request`
(client.py lines 138, 167, 193, 223); UNDEFINED and SUCCESS have no
expected payload and no guard. -/
def shapeMismatch : State → ReqData → Bool
  | State.login_required, ReqData.login _ _ => false
  | State.login_required, _ => true
  | State.login_geetest_triggered, ReqData.mmtResult _ => false
  | State.login_geetest_triggered, _ => true
  | State.email_verification_triggered, ReqData.emailVerification _ => false
  | State.email_verification_triggered, _ => true
  | State.email_geetest_triggered, ReqData.mmtResult _ => false
  | State.email_geetest_triggered, _ => true
  | _, _ => false

/-- A session whose TTL deadline (10) has passed. -/
def c1s : Session := { id := "x", expiration_time := some 10 }

/-- Config with `on_success` set and `on_error` unset, default localization. -/
def c2ctx : Ctx := { on_success := true, on_error := false, localization := defaultLocalization }

/-- A plain LOGIN_REQUIRED session with language "en". -/
def c2s0 : Session := { id := "abc", state := State.login_required, language := some "en" }

/-- First request: credentials submitted, gateway succeeds. -/
def c2out1 : HandleOut :=
  handleRequest c2ctx (LoginOutcome.ok ⟨7⟩) true [("abc", c2s0)] c2s0 (some (ReqData.login "u" "p"))

/-- The SUCCESS session as `_handle_request` leaves it. -/
def c2s1 : Session :=
  { id := "abc", state := State.success, data := none, language := some "en",
    account := some "u", password := some "p", mmt := none, ticket := none,
    expiration_time := none, login_result := some ⟨7⟩ }

/-- Second request on the same id, served from the storage the first
request left behind. -/
def c2out2 : HandleOut :=
  handleRequest c2ctx (LoginOutcome.ok ⟨7⟩) true c2out1.store c2s1 (some (ReqData.login "u" "p"))

/-- An UNDEFINED session created with credentials already attached. -/
def c2su : Session :=
  { id := "u1", state := State.undefined, language := some "en",
    account := some "a", password := some "p" }

/-- Handling the pre-credentialed session with a payload present. -/
def c2out3 : HandleOut :=
  handleRequest c2ctx (LoginOutcome.ok ⟨7⟩) true [("u1", c2su)] c2su (some (ReqData.login "x" "y"))

/-- Result of the memory-storage create call at time 0 with ttl 300,
user data, language "en", account "user" and password "pw". -/
def c3res : Storage × Session :=
  memCreateInStore [] (some 300) 0 "abc" (some ⟨1⟩) (some "en") (some "user") (some "pw") none none

/-- A LOGIN_REQUIRED session whose language "fr" has no localization entry. -/
def c4s : Session := { id := "f", state := State.login_required, language := some "fr" }

/-- A session in the geetest-challenge stage with its challenge payload set. -/
def c6s : Session :=
  { id := "g", state := State.login_geetest_triggered, language := some "en", mmt := some ⟨5⟩ }

/-- Handling the challenge result when the gateway then accepts the login;
no success callback configured, so the session stays stored. -/
def c6out : HandleOut :=
  handleRequest { on_success := false, on_error := false, localization := defaultLocalization }
    (LoginOutcome.ok ⟨7⟩) true [("g", c6s)] c6s (some (ReqData.mmtResult ⟨1⟩))

/-- A session in EMAIL_GEETEST_TRIGGERED holding its verification ticket. -/
def c7s : Session :=
  { id := "e", state := State.email_geetest_triggered, language := some "en", ticket := some ⟨3⟩ }

/-- Handling a challenge-result payload in EMAIL_GEETEST_TRIGGERED with
both callbacks configured. -/
def c7out : HandleOut :=
  handleRequest { on_success := true, on_error := true, localization := defaultLocalization }
    (LoginOutcome.ok ⟨7⟩) true [("e", c7s)] c7s (some (ReqData.mmtResult ⟨1⟩))

/-- Two expired sessions for the sweep-abort scenario. -/
def c9sA : Session := { id := "a", expiration_time := some 1 }

/-- Second expired session, behind the failing one in the sweep order. -/
def c9sB : Session := { id := "b", expiration_time := some 1 }

/-- An arbitrary session value for the update/get round-trip. -/
def c10s : Session := { id := "a", state := State.login_required, language := some "en" }

theorem dictGet_dictSet_self (st : Storage) (id : String) (s : Session) :
    dictGet (dictSet st id s) id = some s := by
  induction st with
  | nil => simp [dictSet, dictGet]
  | cons p rest ih =>
    by_cases h : p.1 = id
    · simp [dictSet, h, dictGet]
    · simp [dictSet, h, dictGet, ih]

theorem dictGet_dictErase_ne (st : Storage) (k k2 : String) (h : k2 ≠ k) :
    dictGet (dictErase st k) k2 = dictGet st k2 := by
  induction st with
  | nil => rfl
  | cons p rest ih =>
    by_cases hp : p.1 = k
    · have hne : ¬ p.1 = k2 := by rw [hp]; exact fun he => h he.symm
      simp only [dictErase, if_pos hp, dictGet, if_neg hne]
    · simp only [dictErase, if_neg hp, dictGet]
      by_cases hp2 : p.1 = k2
      · simp only [if_pos hp2]
      · simp only [if_neg hp2, ih]

theorem dictGet_dictErase_of_none (st : Storage) (k k2 : String) (h : dictGet st k2 = none) :
    dictGet (dictErase st k) k2 = none := by
  induction st with
  | nil => rfl
  | cons p rest ih =>
    by_cases hp2 : p.1 = k2
    · exact absurd h (by simp [dictGet, if_pos hp2])
    · have h2 : dictGet rest k2 = none := by simpa only [dictGet, if_neg hp2] using h
      by_cases hp : p.1 = k
      · simpa only [dictErase, if_pos hp] using h2
      · simp only [dictErase, if_neg hp, dictGet, if_neg hp2]
        exact ih h2

theorem mem_keys_dictErase (st : Storage) (k k2 : String)
    (h : k2 ∈ (dictErase st k).map (fun p => p.1)) : k2 ∈ st.map (fun p => p.1) := by
  induction st with
  | nil => simpa [dictErase] using h
  | cons p rest ih =>
    by_cases hp : p.1 = k
    · simp only [dictErase, if_pos hp] at h
      exact List.mem_cons_of_mem _ h
    · simp only [dictErase, if_neg hp, List.map_cons, List.mem_cons] at h ⊢
      rcases h with h | h
      · exact Or.inl h
      · exact Or.inr (ih h)

theorem keysNodup_dictErase (st : Storage) (k : String) (h : keysNodup st) :
    keysNodup (dictErase st k) := by
  induction st with
  | nil => simpa [dictErase] using h
  | cons p rest ih =>
    unfold keysNodup at h ⊢
    rw [List.map_cons, List.nodup_cons] at h
    by_cases hp : p.1 = k
    · simpa only [dictErase, if_pos hp] using h.2
    · simp only [dictErase, if_neg hp, List.map_cons, List.nodup_cons]
      exact ⟨fun hmem => h.1 (mem_keys_dictErase rest k p.1 hmem), ih h.2⟩

theorem dictGet_eq_none_of_not_mem_keys (st : Storage) (k : String)
    (h : k ∉ st.map (fun p => p.1)) : dictGet st k = none := by
  induction st with
  | nil => rfl
  | cons p rest ih =>
    rw [List.map_cons, List.mem_cons, not_or] at h
    have hp : ¬ p.1 = k := fun he => h.1 he.symm
    simp only [dictGet, if_neg hp]
    exact ih h.2

theorem dictGet_dictErase_self (st : Storage) (k : String) (h : keysNodup st) :
    dictGet (dictErase st k) k = none := by
  induction st with
  | nil => rfl
  | cons p rest ih =>
    unfold keysNodup at h
    rw [List.map_cons, List.nodup_cons] at h
    by_cases hp : p.1 = k
    · have hnm : k ∉ rest.map (fun p => p.1) := hp ▸ h.1
      simpa only [dictErase, if_pos hp] using dictGet_eq_none_of_not_mem_keys rest k hnm
    · simp only [dictErase, if_neg hp, dictGet, if_neg hp]
      exact ih h.2

theorem dictGet_mem (st : Storage) (k : String) (s : Session)
    (h : dictGet st k = some s) : (k, s) ∈ st := by
  induction st with
  | nil => exact absurd h (by simp [dictGet])
  | cons p rest ih =>
    by_cases hp : p.1 = k
    · have hs : p.2 = s := by
        have := h
        simp only [dictGet, if_pos hp] at this
        exact Option.some.inj this
      have : p = (k, s) := by
        cases p
        simp only at hp hs
        rw [hp, hs]
      rw [this] at *
      exact List.mem_cons_self _ _
    · simp only [dictGet, if_neg hp] at h
      exact List.mem_cons_of_mem _ (ih h)

theorem mem_expired_keys (st : Storage) (now : Nat) (k : String) (s : Session)
    (h : dictGet st k = some s) (he : isExpired now s = true) :
    k ∈ (st.filter (fun p => isExpired now p.2)).map (fun p => p.1) :=
  List.mem_map.mpr ⟨(k, s), List.mem_filter.mpr ⟨dictGet_mem st k s h, by simpa using he⟩, rfl⟩

theorem dictGet_sweepGo_of_none (fail : Session → Bool) (entries : List (String × Session))
    (st : Storage) (k : String) (h : dictGet st k = none) :
    dictGet (sweepGo fail entries st).1 k = none := by
  induction entries generalizing st with
  | nil => simpa [sweepGo] using h
  | cons e rest ih =>
    obtain ⟨k1, s1⟩ := e
    by_cases hf : fail s1
    · simpa only [sweepGo, hf, if_pos] using dictGet_dictErase_of_none st k1 k h
    · simp only [sweepGo, hf]
      simpa using ih (dictErase st k1) (dictGet_dictErase_of_none st k1 k h)

theorem dictGet_sweepGo_noFail (entries : List (String × Session)) (st : Storage) (k : String)
    (hn : keysNodup st) (h : k ∈ entries.map (fun p => p.1)) :
    dictGet (sweepGo (fun _ => false) entries st).1 k = none := by
  induction entries generalizing st with
  | nil => simp at h
  | cons e rest ih =>
    obtain ⟨k1, s1⟩ := e
    simp only [List.map_cons, List.mem_cons] at h
    simp only [sweepGo, Bool.false_eq_true, if_neg]
    rcases h with h | h
    · subst h
      exact dictGet_sweepGo_of_none _ rest (dictErase st k) k (dictGet_dictErase_self st k hn)
    · exact ih (dictErase st k1) (keysNodup_dictErase st k1 hn) h

/-- C1, counterexample: a session whose `expiration_time` (10) is strictly
in the past at time 20 is still returned by `get` on both backends — the
memory `get_session` is a plain dict read and the postgres `get_session`
selects by id only, so neither filters by expiry, contradicting the claim
that `get` itself returns not-found for expired sessions. -/
theorem c1_expired_get_counterexample :
    memGetSession [("x", c1s)] "x" = some c1s ∧
    isExpired 20 c1s = true ∧
    pgGetSession [("x", c1s)] "x" = some c1s := by
  decide

/-- C1, amended: `get` does not itself filter by expiry — it still returns
a session that is strictly past `expiration_time` — and the session only
becomes not-found after a pass of the background eviction sweep (with a
callback that does not raise) removes it. -/
theorem c1_get_ignores_expiry_until_sweep (st : Storage) (now : Nat) (id : String) (s : Session)
    (hn : keysNodup st) (h : dictGet st id = some s) (he : isExpired now s = true) :
    memGetSession st id = some s ∧
    memGetSession (cleanupPass (fun _ => false) now st).1 id = none := by
  refine ⟨h, ?_⟩
  unfold memGetSession cleanupPass
  exact dictGet_sweepGo_noFail _ st id hn (mem_expired_keys st now id s h he)

/-- C1, witness for the amended theorem at the concrete expired session. -/
theorem c1_get_ignores_expiry_until_sweep_witness :
    memGetSession [("x", c1s)] "x" = some c1s ∧
    memGetSession (cleanupPass (fun _ => false) 20 [("x", c1s)]).1 "x" = none :=
  c1_get_ignores_expiry_until_sweep [("x", c1s)] 20 "x" c1s (by decide) (by decide) (by decide)

/-- C5: the safe projection never contains the credentials — two sessions
that differ only in `account` and `password` have identical
`get_partial` projections, for every state. -/
theorem c5_projection_credential_free (s : Session) (a p a2 p2 : Option String) :
    Session.getPartial { s with account := a, password := p } =
    Session.getPartial { s with account := a2, password := p2 } :=
  rfl

/-- C2, code-bug evaluation: with `on_success` configured, a
LOGIN_REQUIRED session whose credential submission the gateway accepts is
fired-and-deleted — but then line 255 unconditionally re-persists it, so
`get` still finds it with state SUCCESS after the response; a second
request on the same id fires `on_success` again (one firing per call,
two in total). -/
theorem c2_success_repersisted_bug :
    c2out1.resp = Except.ok ⟨200, Content.projection c2s1.getPartial⟩ ∧
    c2out1.successFired = [c2s1] ∧
    memGetSession c2out1.store "abc" = some c2s1 ∧
    c2out2.successFired = [c2s1] ∧
    memGetSession c2out2.store "abc" = some c2s1 ∧
    c2out3.successFired.length = 2 := by
  decide

/-- C3, code-bug evaluation: the memory-backend `create_session` invoked
with user data, language "en", account "user" and password "pw" persists a
session whose `data` and `account` are None — the method binds them to
parameters named `arguments` and `login`, which the `Session` model does
not recognise and silently drops — while language, password and
`expiration_time = now + ttl` survive. -/
theorem c3_create_drops_fields_bug :
    c3res.2.data = none ∧
    c3res.2.account = none ∧
    c3res.2.language = some "en" ∧
    c3res.2.password = some "pw" ∧
    c3res.2.state = State.undefined ∧
    c3res.2.expiration_time = some 300 ∧
    memGetSession c3res.1 "abc" = some c3res.2 := by
  decide

/-- C7, code-bug evaluation: a session in EMAIL_GEETEST_TRIGGERED
receiving a challenge-result payload makes `_handle_request` call
`_email_verify_session(session, mmt_result=..., ticket=...)`, a keyword
that method does not accept — TypeError is raised (after firing
`on_error`), no gateway call is made, no retry happens, and the storage
keeps the session unchanged. -/
theorem c7_email_geetest_typeerror_bug :
    c7out.resp = Except.error PyErr.typeError ∧
    c7out.gwCalls = 0 ∧
    c7out.successFired = [] ∧
    c7out.errorFired = 1 ∧
    c7out.store = [("e", c7s)] := by
  decide

/-- C8, counterexample: for the unknown language "fr" the login-page
lookup yields the empty string rather than the "en" entry, and the
client's error path raises KeyError instead of producing a string —
contradicting the claim that lookups fall back to "en" and never fail. -/
theorem c8_no_en_fallback_counterexample :
    fprocessLookup defaultLocalization.login_failed_title "fr" = "" ∧
    locGet defaultLocalization.login_failed_title (some "en") = some "Login failed." ∧
    (handleRequest { on_success := false, on_error := false, localization := defaultLocalization }
      LoginOutcome.exc true [("f", c4s)] c4s (some (ReqData.login "u" "p"))).resp =
      Except.error PyErr.keyError := by
  decide

/-- C8, amended: when the language has no entry in a localization table
the login-page processor falls back to the empty string (the client's
error-path lookups, by contrast, have no fallback at all and raise
KeyError, as the counterexample shows). -/
theorem c8_missing_language_empty_string (m : LocMap) (lang : String)
    (h : locGet m (some lang) = none) :
    fprocessLookup m lang = "" := by
  unfold fprocessLookup
  rw [h]
  rfl

/-- C8, witness: the default login-failed title table at language "fr". -/
theorem c8_missing_language_empty_string_witness :
    fprocessLookup defaultLocalization.login_failed_title "fr" = "" :=
  c8_missing_language_empty_string defaultLocalization.login_failed_title "fr" (by decide)

/-- C6, counterexample: a geetest-challenge session holding only its mmt
satisfies the claimed exclusivity invariant, but after the gateway
accepts the challenge login the stored session is in SUCCESS with BOTH
`mmt` and `login_result` set — `_login_session` never clears the payload
of a previous stage, so the invariant is violated by a reachable step. -/
theorem c6_exclusivity_violated_counterexample :
    exclusiveAligned c6s = true ∧
    memGetSession c6out.store "g" =
      some { c6s with state := State.success, login_result := some ⟨7⟩ } ∧
    exclusiveAligned { c6s with state := State.success, login_result := some ⟨7⟩ } = false := by
  decide

/-- C6, amended: each `_login_session` branch sets the payload of the
stage it enters but does not clear older payloads — a successful login
from a session carrying an mmt yields a SUCCESS session with both mmt and
login_result set, so only the one-way "new stage's payload is present"
alignment holds, not exclusivity. -/
theorem c6_stale_payload_not_cleared (s : Session) (m : SessionMMT) (r : AppLoginResult)
    (h : s.mmt = some m) :
    (loginSession (LoginOutcome.ok r) s).state = State.success ∧
    (loginSession (LoginOutcome.ok r) s).mmt = some m ∧
    (loginSession (LoginOutcome.ok r) s).login_result = some r := by
  simp [loginSession, h]

/-- C6, witness at the concrete geetest session. -/
theorem c6_stale_payload_not_cleared_witness :
    (loginSession (LoginOutcome.ok ⟨7⟩) c6s).state = State.success ∧
    (loginSession (LoginOutcome.ok ⟨7⟩) c6s).mmt = some ⟨5⟩ ∧
    (loginSession (LoginOutcome.ok ⟨7⟩) c6s).login_result = some ⟨7⟩ :=
  c6_stale_payload_not_cleared c6s ⟨5⟩ ⟨7⟩ (by decide)

/-- C9, counterexample: a sweep pass over two expired sessions whose
callback raises on the first removes only the first — the exception
escapes the loop (flag true), the second expired session is left in
storage and its callback is never invoked, contradicting the claim that
one callback failure does not stop the sweep. -/
theorem c9_sweep_dies_counterexample :
    cleanupPass (fun s => s.id == "a") 5 [("a", c9sA), ("b", c9sB)] =
      ([("b", c9sB)], [c9sA], true) ∧
    isExpired 5 c9sB = true := by
  decide

/-- C9, amended: an exception from the expiry callback aborts the sweep:
when the first expired entry's callback raises, the pass ends having
removed only that entry and invoked only that one callback, the exception
escapes (killing the loop), and every other key is left exactly as it
was. -/
theorem c9_callback_exception_aborts_sweep (fail : Session → Bool) (now : Nat) (st : Storage)
    (k : String) (s : Session) (ks : List (String × Session))
    (hf : st.filter (fun p => isExpired now p.2) = (k, s) :: ks)
    (hfail : fail s = true) :
    cleanupPass fail now st = (dictErase st k, [s], true) ∧
    (∀ k2, k2 ≠ k → dictGet (dictErase st k) k2 = dictGet st k2) := by
  constructor
  · unfold cleanupPass
    rw [hf]
    simp [sweepGo, hfail]
  · intro k2 hk
    exact dictGet_dictErase_ne st k k2 hk

/-- C9, witness at the two-expired-sessions store with the callback
raising on the first. -/
theorem c9_callback_exception_aborts_sweep_witness :
    cleanupPass (fun s => s.id == "a") 5 [("a", c9sA), ("b", c9sB)] =
      (dictErase [("a", c9sA), ("b", c9sB)] "a", [c9sA], true) ∧
    (∀ k2, k2 ≠ "a" →
      dictGet (dictErase [("a", c9sA), ("b", c9sB)] "a") k2 =
      dictGet [("a", c9sA), ("b", c9sB)] k2) :=
  c9_callback_exception_aborts_sweep (fun s => s.id == "a") 5 _ "a" c9sA [("b", c9sB)]
    (by decide) (by decide)

/-- C10, counterexample: updating an id that is absent stores nothing on
the postgres backend — `update_session` as written raises AttributeError
(it reads `session.login`, which the `Session` model lacks), and even the
UPDATE statement it intends to run touches only existing rows — so a
subsequent `get` returns not-found, contradicting the claim that update
has upsert semantics uniformly across both backends. -/
theorem c10_postgres_not_upsert_counterexample :
    pgUpdateSession [] "a" c10s = Except.error PyErr.attributeError ∧
    dictGet (pgUpdateRows [] "a" c10s) "a" = none ∧
    memGetSession (memUpdateSession [] "a" c10s) "a" = some c10s := by
  decide

/-- C10, amended: the upsert reading holds only for the memory backend —
its update is a plain dict write, so update-then-get returns the session
even when the id was absent — while the postgres `update_session` raises
AttributeError as written, and the UPDATE row semantics it encodes
inserts nothing, leaving an absent id absent. -/
theorem c10_upsert_memory_only (st : Storage) (id : String) (s : Session)
    (h : dictGet st id = none) :
    memGetSession (memUpdateSession st id s) id = some s ∧
    pgUpdateSession st id s = Except.error PyErr.attributeError ∧
    dictGet (pgUpdateRows st id s) id = none := by
  refine ⟨dictGet_dictSet_self st id s, rfl, ?_⟩
  induction st with
  | nil => rfl
  | cons p rest ih =>
    by_cases hp : p.1 = id
    · exact absurd h (by simp [dictGet, if_pos hp])
    · have h2 : dictGet rest id = none := by simpa only [dictGet, if_neg hp] using h
      simp only [pgUpdateRows, List.map_cons, if_neg hp, dictGet]
      simpa only [pgUpdateRows] using ih h2

/-- C10, witness: the empty store at id "a". -/
theorem c10_upsert_memory_only_witness :
    memGetSession (memUpdateSession [] "a" c10s) "a" = some c10s ∧
    pgUpdateSession [] "a" c10s = Except.error PyErr.attributeError ∧
    dictGet (pgUpdateRows [] "a" c10s) "a" = none :=
  c10_upsert_memory_only [] "a" c10s (by decide)

/-- C4, counterexample: a LOGIN_REQUIRED session whose language ("fr")
has no localization entry receives a wrong-shape payload — instead of the
claimed 422 structured error, the title lookup raises KeyError and the
exception propagates out of `handle`. -/
theorem c4_wrong_shape_keyerror_counterexample :
    (handleRequest c2ctx (LoginOutcome.ok ⟨7⟩) true [("f", c4s)] c4s
      (some (ReqData.mmtResult ⟨1⟩))).resp = Except.error PyErr.keyError := by
  decide

/-- C4, amended: in every payload-expecting state, a payload whose shape
mismatches the stage yields the 422 invalid-request-body structured error
with the session persisted unchanged, no success-callback firing and no
gateway call — provided the session's language has entries in the
invalid-request-body title and message tables (otherwise the lookup
raises KeyError, as the counterexample shows). -/
theorem c4_wrong_shape_422 (ctx : Ctx) (gwL : LoginOutcome) (gwV : Bool) (st : Storage)
    (s : Session) (d : ReqData) (t msg : String)
    (h0 : s.state = State.login_required ∨ s.state = State.login_geetest_triggered ∨
          s.state = State.email_verification_triggered ∨ s.state = State.email_geetest_triggered)
    (h1 : shapeMismatch s.state d = true)
    (h2 : locGet ctx.localization.invalid_request_body_title s.language = some t)
    (h3 : locGet ctx.localization.invalid_request_body_message s.language = some msg) :
    handleRequest ctx gwL gwV st s (some d) =
      { resp := Except.ok ⟨422, Content.errorBody t msg⟩
        store := memUpdateSession st s.id s
        successFired := []
        errorFired := 0
        gwCalls := 0 } := by
  rcases h0 with h | h | h | h <;> cases d <;>
    simp_all [shapeMismatch, handleRequest, invalidBodyOut, defineSessionState]

/-- C4, witness: the default localization at language "en", a
LOGIN_REQUIRED session receiving a challenge-result payload. -/
theorem c4_wrong_shape_422_witness :
    handleRequest c2ctx (LoginOutcome.ok ⟨7⟩) true [] c2s0 (some (ReqData.mmtResult ⟨1⟩)) =
      { resp := Except.ok ⟨422, Content.errorBody "Invalid request body."
          "Request body is invalid. Please report this error to the developer or try again later."⟩
        store := memUpdateSession [] c2s0.id c2s0
        successFired := []
        errorFired := 0
        gwCalls := 0 } :=
  c4_wrong_shape_422 c2ctx (LoginOutcome.ok ⟨7⟩) true [] c2s0 (ReqData.mmtResult ⟨1⟩) _ _
    (Or.inl (by decide)) (by decide) (by decide) (by decide)
